import Mathlib

/-!
# Verification of the supervisor-agent orchestration core

Shallow embedding, in Lean 4, of the task-orchestration core of the
repository: the in-memory virtual file system (`src/core/file_system.py`),
the todo ledger (`src/core/tools/supervisor_tools.py`), the supervisor
decision procedure (`src/core/agents/supervisor.py`), the workflow
loop-continuation rule (`src/graph/workflow.py`), and the subagent
execution data flow (`src/core/agents/subagent.py`).

Python strings holding file contents are modelled as `List Char` so that
occurrence counting and find/replace can be reasoned about directly;
file paths, statuses, modes and messages stay `String`.  Python `dict`
stores are modelled as insertion-ordered association lists (Python dicts
preserve insertion order, and an update in place keeps the key position).
Fallible Python code (raising `ValueError` / `FileNotFoundError`) is
modelled with `Except`; functions that catch internally and return an
error dictionary are modelled as total functions returning a response
structure.  Calls to the external LLM collaborator are modelled as an
oracle parameter `FS → FS × ExecOutcome`.
-/

/-- File contents: a Python `str` viewed as its character sequence. -/
abbrev Str := List Char

/-- Number of UTF-8 bytes of a content string: `len(content.encode("utf-8"))`. -/
def utf8Len (s : Str) : Nat := (s.map Char.utf8Size).sum

/-!
## Python string primitives: `str.count` and `str.replace`

`str.count(pat)` counts non-overlapping occurrences scanning left to
right; `str.replace(pat, r)` replaces the same occurrences.  For a
non-empty pattern the scan consumes at least one character per step, so
a fuel argument equal to the initial length makes the recursion
structural (the fuel never runs out on the initial call).  The empty
pattern is special-cased as Python does: `s.count("") == len(s) + 1`
and `s.replace("", r)` interleaves `r` around every character.
-/

/-- Left-to-right non-overlapping occurrence count of `pat` (non-empty) in a
string, with explicit fuel.  On a match at `a :: rest` the scan resumes
after the matched block, i.e. at `rest.drop (pat.length - 1)`. -/
def scanCount : Nat → Str → Str → Nat
  | 0, _, _ => 0
  | _ + 1, [], _ => 0
  | fuel + 1, a :: rest, pat =>
    if pat.isPrefixOf (a :: rest) then
      1 + scanCount fuel (rest.drop (pat.length - 1)) pat
    else
      scanCount fuel rest pat

/-- Python `s.count(pat)`. -/
def countOccs (s pat : Str) : Nat :=
  if pat.isEmpty then s.length + 1 else scanCount s.length s pat

/-- Replacement scan matching `scanCount` (non-empty pattern, fuelled). -/
def scanReplace : Nat → Str → Str → Str → Str
  | 0, s, _, _ => s
  | _ + 1, [], _, _ => []
  | fuel + 1, a :: rest, pat, r =>
    if pat.isPrefixOf (a :: rest) then
      r ++ scanReplace fuel (rest.drop (pat.length - 1)) pat r
    else
      a :: scanReplace fuel rest pat r

/-- Python `s.replace(pat, r)` (replace all occurrences). -/
def pyReplace (s pat r : Str) : Str :=
  if pat.isEmpty then r ++ s.foldr (fun a acc => a :: (r ++ acc)) []
  else scanReplace s.length s pat r

/-- Python `str.strip()`: drop leading and trailing whitespace. -/
def pyStrip (s : String) : String :=
  String.mk (((s.toList.dropWhile Char.isWhitespace).reverse.dropWhile
    Char.isWhitespace).reverse)

/-- Python `str.lower()` restricted to ASCII case mapping. -/
def pyLower (s : String) : String := String.map Char.toLower s

/-- Python `sub in s` membership test on strings, which holds exactly when
`s.count(sub) > 0` (including Python's convention for the empty substring). -/
def pyContains (s sub : String) : Bool :=
  decide (0 < countOccs s.toList sub.toList)

/-!
## VirtualFileSystem (`src/core/file_system.py`)

`self.files : Dict[str, str]` is modelled as an insertion-ordered
association list from paths to contents.
-/

/-- The file store of `VirtualFileSystem`. -/
abbrev FS := List (String × Str)

/-- Python `self.files.get(path)` / `path in self.files`. -/
def lookupFile : FS → String → Option Str
  | [], _ => none
  | (q, c) :: rest, p => if q = p then some c else lookupFile rest p

/-- Python `self.files[path] = content`: update in place (a Python dict
update keeps the key at its existing position), else append the new key. -/
def setFile : FS → String → Str → FS
  | [], p, c => [(p, c)]
  | (q, d) :: rest, p, c =>
    if q = p then (p, c) :: rest else (q, d) :: setFile rest p c

/-- Python `del self.files[path]`. -/
def removeFile (fs : FS) (p : String) : FS :=
  fs.filter (fun kv => kv.1 != p)

/-- `VirtualFileSystem.list_files`: `list(self.files.keys())`. -/
def listFiles (fs : FS) : List String := fs.map Prod.fst

/-- Exceptions raised by the store operations. -/
inductive PyErr where
  | valueError (msg : String)
  | fileNotFoundError (msg : String)
deriving DecidableEq, Repr

/-- `VirtualFileSystem.read_file`.  (The Python `isinstance(path, str)`
check is discharged by typing.) -/
def readFile (fs : FS) (path : String) : Except PyErr Str :=
  if path = "" then .error (.valueError "Invalid file path provided")
  else
    match lookupFile fs path with
    | some c => .ok c
    | none => .error (.fileNotFoundError ("File " ++ path ++ " not found"))

/-- Result dictionary of `write_file`. -/
structure WriteResult where
  path : String
  bytesWritten : Nat
  status : String
deriving DecidableEq, Repr

/-- `VirtualFileSystem.write_file`.  (The Python code also reads
`old_content = self.files.get(path, "")`, a dead assignment never used.) -/
def writeFile (fs : FS) (path : String) (content : Str) :
    Except PyErr (WriteResult × FS) :=
  if path = "" then .error (.valueError "Invalid file path provided")
  else
    let wasCreated := (lookupFile fs path).isNone
    .ok (⟨path, utf8Len content,
          if wasCreated then "created" else "overwritten"⟩,
         setFile fs path content)

/-- Result dictionary of `delete_file`. -/
structure DeleteResult where
  path : String
  status : String
deriving DecidableEq, Repr

/-- `VirtualFileSystem.delete_file`. -/
def deleteFile (fs : FS) (path : String) : Except PyErr (DeleteResult × FS) :=
  if path = "" then .error (.valueError "Invalid file path provided")
  else
    match lookupFile fs path with
    | none => .error (.fileNotFoundError ("File " ++ path ++ " not found"))
    | some _ => .ok (⟨path, "deleted"⟩, removeFile fs path)

/-- Python `len(content.splitlines())`, for `\n`-separated text. -/
def pyLineCount (c : Str) : Nat :=
  if c = [] then 0
  else c.count '\n' + (if c.getLast? = some '\n' then 0 else 1)

/-- Result dictionary of `get_file_info`. -/
structure FileInfo where
  path : String
  sizeBytes : Nat
  sizeChars : Nat
  lines : Nat
  exists_ : Bool
deriving DecidableEq, Repr

/-- `VirtualFileSystem.get_file_info`. -/
def getFileInfo (fs : FS) (path : String) : Except PyErr FileInfo :=
  if path = "" then .error (.valueError "Invalid file path provided")
  else
    match lookupFile fs path with
    | none => .error (.fileNotFoundError ("File " ++ path ++ " not found"))
    | some c => .ok ⟨path, utf8Len c, c.length, pyLineCount c, true⟩

-- Basic store lemmas.

theorem lookupFile_setFile_self (fs : FS) (p : String) (c : Str) :
    lookupFile (setFile fs p c) p = some c := by
  induction fs with
  | nil => simp [setFile, lookupFile]
  | cons kv rest ih =>
    obtain ⟨q, d⟩ := kv
    by_cases h : q = p
    · simp [setFile, lookupFile, h]
    · simp [setFile, lookupFile, h, ih]

theorem setFile_self_of_lookup (fs : FS) (p : String) (c : Str)
    (h : lookupFile fs p = some c) : setFile fs p c = fs := by
  induction fs with
  | nil => simp [lookupFile] at h
  | cons kv rest ih =>
    obtain ⟨q, d⟩ := kv
    by_cases hq : q = p
    · simp [lookupFile, hq] at h
      simp [setFile, hq, h]
    · simp [lookupFile, hq] at h
      simp [setFile, hq, ih h]

/-!
## `VirtualFileSystem.edit_file`

`edits` is typed `Union[List[Dict[str, str]], str]` but arrives as an
arbitrary runtime value; `EditSpec` distinguishes the three relevant
shapes.  A list entry that is not a dict, or lacks a `find`/`replace`
key, is skipped (`continue` in the loop) and is modelled by `.junk`.
-/

/-- One entry of a `find_replace` edit list. -/
inductive EditItem where
  /-- A dict with both a `find` and a `replace` key. -/
  | pair (find replaceWith : Str)
  /-- A non-dict entry, or a dict missing `find` or `replace`: skipped. -/
  | junk
deriving DecidableEq, Repr

/-- The runtime shape of the `edits` argument. -/
inductive EditSpec where
  /-- A Python string. -/
  | str (s : Str)
  /-- A Python list. -/
  | list (items : List EditItem)
  /-- Any other runtime value. -/
  | other
deriving DecidableEq, Repr

/-- `isinstance(edits, str)`. -/
def EditSpec.isStr : EditSpec → Bool
  | .str _ => true
  | _ => false

/-- `isinstance(edits, list)`. -/
def EditSpec.isList : EditSpec → Bool
  | .list _ => true
  | _ => false

/-- One entry of the `changes` list reported by `find_replace` mode. -/
structure Change where
  find : Str
  replaceWith : Str
  occurrences : Nat
deriving DecidableEq, Repr

/-- The truncation `x[:50] + "..." if len(x) > 50 else x` applied to the
`find`/`replace` strings recorded in a change entry. -/
def truncate50 (s : Str) : Str :=
  if 50 < s.length then s.take 50 ++ ("...".toList) else s

/-- The `find_replace` loop (`edit_file` lines 162-187): each pair is
applied to the current content in list order; a pair whose `find` string
has no occurrence is skipped entirely (no replacement, no change entry).
Returns (final content, change entries in order, total replacements). -/
def applyFindReplace : Str → List EditItem → Str × List Change × Nat
  | c, [] => (c, [], 0)
  | c, .junk :: rest => applyFindReplace c rest
  | c, .pair f r :: rest =>
    let count := countOccs c f
    if 0 < count then
      let c2 := pyReplace c f r
      let res := applyFindReplace c2 rest
      (res.1, ⟨truncate50 f, truncate50 r, count⟩ :: res.2.1, count + res.2.2)
    else
      applyFindReplace c rest

/-- The dictionary returned by `edit_file`; keys that a given branch does
not include are `none`/empty here.  The `diff` entry (a `difflib`
unified diff of old vs. new content, presentation only) is elided. -/
structure EditResponse where
  success : Bool
  path : String
  error : Option String
  operation : Option String
  changes : List Change
  totalReplacements : Nat
  bytesAdded : Option Nat
  bytesWritten : Option Nat
  originalSize : Option Nat
deriving DecidableEq, Repr

/-- A `{"success": False, "error": msg, "path": path}` response. -/
def editFailure (path msg : String) : EditResponse :=
  ⟨false, path, some msg, none, [], 0, none, none, none⟩

/-- `VirtualFileSystem.edit_file` on an existing file with content
`original`.  Branches in source order: `append`, then `replace` (or
`auto` with a string), then `find_replace` (or `auto` with a list),
then the fall-through invalid-format response. -/
def editFileExisting (fs : FS) (path : String) (original : Str)
    (edits : EditSpec) (mode : String) : EditResponse × FS :=
  if mode = "append" then
    match edits with
    | .str s =>
      -- separator inserted iff content is non-empty and lacks a final newline
      let sep : Str :=
        if original ≠ [] ∧ original.getLast? ≠ some '\n' then ['\n'] else []
      let newContent := original ++ sep ++ s
      (⟨true, path, none, some "append", [], 0, some (utf8Len s), none, none⟩,
       setFile fs path newContent)
    | _ => (editFailure path "Append mode requires string content", fs)
  else if mode = "replace" ∨ (mode = "auto" ∧ edits.isStr) then
    match edits with
    | .str s =>
      (⟨true, path, none, some "whole_file_replace", [], 0, none,
        some (utf8Len s), some (utf8Len original)⟩,
       setFile fs path s)
    | _ =>
      -- Reachable only with an explicit mode="replace" and non-string edits:
      -- Python stores the raw non-string value in the dict (corrupting the
      -- text-only store) and still reports success.  The store update cannot
      -- be represented in a text-valued store; no claim exercises this input.
      (⟨true, path, none, some "whole_file_replace", [], 0, none, none,
        some (utf8Len original)⟩, fs)
  else if mode = "find_replace" ∨ (mode = "auto" ∧ edits.isList) then
    match edits with
    | .list items =>
      let res := applyFindReplace original items
      (⟨true, path, none, some "find_replace", res.2.1, res.2.2, none, none,
        none⟩,
       setFile fs path res.1)
    | .str _ =>
      -- Reachable only with an explicit mode="find_replace" and string edits:
      -- the loop enumerates the string's characters, none of which is a
      -- dict, so every entry is skipped and the content is rewritten
      -- unchanged.
      (⟨true, path, none, some "find_replace", [], 0, none, none, none⟩,
       setFile fs path original)
    | .other =>
      -- enumerate() over a non-iterable raises TypeError, caught by the
      -- surrounding except-block and turned into an error response.
      (editFailure path "argument of type EditSpec.other is not iterable", fs)
  else
    (editFailure path "Invalid mode or edits format", fs)

/-- `VirtualFileSystem.edit_file`: a missing path yields an error
response (not an exception); otherwise dispatch on the mode. -/
def editFile (fs : FS) (path : String) (edits : EditSpec) (mode : String) :
    EditResponse × FS :=
  match lookupFile fs path with
  | none => (editFailure path ("File " ++ path ++ " not found"), fs)
  | some original => editFileExisting fs path original edits mode

/-!
## TodoManager (`src/core/tools/supervisor_tools.py`)

A task dictionary.  The `artifacts` key is absent until
`update_task_with_artifacts` attaches a list, hence `Option`.
-/

/-- A task entry of the todo ledger (and of `todo_list` in the workflow
state). -/
structure TodoTask where
  id : Nat
  task : String
  status : String
  assignedTools : List String
  artifacts : Option (List String)
deriving DecidableEq, Repr

/-- TodoTask status constants from `src/core/state.py`. -/
def TASK_STATUS_PENDING : String := "pending"

def TASK_STATUS_IN_PROGRESS : String := "in_progress"

def TASK_STATUS_COMPLETED : String := "completed"

def TASK_STATUS_FAILED : String := "failed"

/-- `MAX_ITERATIONS` from `src/core/state.py`. -/
def MAX_ITERATIONS : Nat := 20

/-- The `TodoManager` dataclass state. -/
structure TodoManager where
  todoList : List TodoTask
  nextTaskId : Nat
deriving DecidableEq, Repr

/-- `TodoManager._analyze_task_tools`: keyword-driven tool assignment.
Each keyword test is Python `keyword in task_lower`. -/
def analyzeTaskTools (taskDescription : String)
    (defaultTools : Option (List String)) : List String :=
  let taskLower := pyLower taskDescription
  let has := fun (kw : String) => pyContains taskLower kw
  let codeKeywords :=
    ["calculate", "compute", "algorithm", "formula", "math", "number",
     "sequence"]
  let tools0 : List String :=
    if codeKeywords.any has then ["execute_code"]
    else if ["fibonacci", "sum", "total"].any has then
      -- report/summary tasks do not get execute_code
      if ["report", "summary", "show", "display"].any has then []
      else ["execute_code"]
    else []
  let tools1 := tools0 ++
    (if ["save", "write", "create file", "store", "output to file",
         "save to"].any has then ["write_file"] else [])
  let readKeywords :=
    ["read", "load", "open file", "from file", "read file",
     "summary", "report", "show", "display", "based on", "using",
     "from", "with", "containing", "including", "combine", "merge"]
  let tools2 := tools1 ++
    (if readKeywords.any has then ["read_file"] else [])
  let tools3 := tools2 ++
    (if ["edit", "modify", "update file", "change"].any has then
      ["edit_file"] else [])
  let tools4 := tools3 ++
    (if ["search", "find", "look up", "research", "web", "internet"].any has
      then ["search_internet"] else [])
  let tools5 := tools4 ++
    (if ["scrape", "extract from", "crawl", "get content from url"].any has
      then ["web_scrape"] else [])
  if tools5 = [] then
    match defaultTools with
    | some ds =>
      -- `if default_tools:` is Python truthiness: an empty list also
      -- falls through to the minimal default
      if ds ≠ [] then ds
      else if has "calculate" then ["execute_code"] else ["write_file"]
    | none => if has "calculate" then ["execute_code"] else ["write_file"]
  else tools5

/-- `TodoManager.create_tasks`: one pending task per non-blank
description, in order, with sequential ids.  Returns (created tasks,
updated manager). -/
def createTasks (m : TodoManager) (descs : List String)
    (assignedTools : Option (List String)) : List TodoTask × TodoManager :=
  match descs with
  | [] => ([], m)
  | d :: rest =>
    if pyStrip d ≠ "" then
      let t : TodoTask := ⟨m.nextTaskId, pyStrip d, "pending",
                       analyzeTaskTools (pyStrip d) assignedTools, none⟩
      let res := createTasks ⟨m.todoList ++ [t], m.nextTaskId + 1⟩ rest
                   assignedTools
      (t :: res.1, res.2)
    else createTasks m rest assignedTools

/-- `TodoManager.add_task`. -/
def addTask (m : TodoManager) (description : String)
    (assignedTools : Option (List String)) : TodoTask × TodoManager :=
  let t : TodoTask := ⟨m.nextTaskId, pyStrip description, "pending",
                   analyzeTaskTools (pyStrip description) assignedTools, none⟩
  (t, ⟨m.todoList ++ [t], m.nextTaskId + 1⟩)

/-- The valid status values accepted by the update operations. -/
def validStatuses : List String :=
  ["pending", "in_progress", "completed", "failed"]

/-- Find the first task with the given id and update its status (and,
when `artifacts` is provided, attach the artifact list).  Returns the
updated task (if found) and the updated collection. -/
def updateFirstTask : List TodoTask → Nat → String → Option (List String) →
    Option TodoTask × List TodoTask
  | [], _, _, _ => (none, [])
  | t :: rest, taskId, newStatus, artifacts =>
    if t.id = taskId then
      let t2 : TodoTask :=
        { t with
          status := newStatus
          artifacts := match artifacts with
            | some a => some a
            | none => t.artifacts }
      (some t2, t2 :: rest)
    else
      let res := updateFirstTask rest taskId newStatus artifacts
      (res.1, t :: res.2)

/-- `TodoManager.update_task_status`: raises `ValueError` on an invalid
status, else updates the first task with the given id (or returns
`None` when no task matches). -/
def updateTaskStatus (m : TodoManager) (taskId : Nat) (newStatus : String) :
    Except String (Option TodoTask × TodoManager) :=
  if ¬ validStatuses.contains newStatus then
    .error ("Invalid status " ++ newStatus)
  else
    let res := updateFirstTask m.todoList taskId newStatus none
    .ok (res.1, ⟨res.2, m.nextTaskId⟩)

/-- `TodoManager.update_task_with_artifacts`: same validation, and when
`artifacts` is not `None` it is attached to the task. -/
def updateTaskWithArtifacts (m : TodoManager) (taskId : Nat)
    (newStatus : String) (artifacts : Option (List String)) :
    Except String (Option TodoTask × TodoManager) :=
  if ¬ validStatuses.contains newStatus then
    .error ("Invalid status " ++ newStatus)
  else
    let res := updateFirstTask m.todoList taskId newStatus artifacts
    .ok (res.1, ⟨res.2, m.nextTaskId⟩)

/-- `TodoManager.get_pending_tasks`. -/
def getPendingTasks (m : TodoManager) : List TodoTask :=
  m.todoList.filter (fun t => t.status = "pending")

/-- `TodoManager.clear_completed_tasks`: removes completed tasks and
returns the count removed. -/
def clearCompletedTasks (m : TodoManager) : Nat × TodoManager :=
  let kept := m.todoList.filter (fun t => t.status ≠ "completed")
  (m.todoList.length - kept.length, ⟨kept, m.nextTaskId⟩)

/-- Number of tasks currently marked `in_progress`. -/
def inProgressCount (l : List TodoTask) : Nat :=
  (l.filter (fun t => t.status = "in_progress")).length

/-- The claimed ledger invariant: at most one task is `in_progress`. -/
def atMostOneInProgress (l : List TodoTask) : Prop := inProgressCount l ≤ 1

instance (l : List TodoTask) : Decidable (atMostOneInProgress l) := by
  unfold atMostOneInProgress; infer_instance

/-- Status of the first task with a given id, if any. -/
def statusOfTask (l : List TodoTask) (taskId : Nat) : Option String :=
  (l.find? (fun t => t.id = taskId)).map TodoTask.status

/-- Artifacts of the first task with a given id, if any. -/
def artifactsOfTask (l : List TodoTask) (taskId : Nat) : Option (List String) :=
  (l.find? (fun t => t.id = taskId)).bind TodoTask.artifacts

/-!
## Workflow state, supervisor DECIDE, and loop continuation

`src/graph/workflow.py` defines the graph state (including the per-run
`max_iterations`, default 20); `SupervisorAgent.decide_next_action` in
`src/core/agents/supervisor.py` reads only `todo_list` and
`iteration_count` from it.  `final_result` is a string whose Python
truthiness ("" and a missing key are falsy) gates the continuation
check, so the empty string models "not set".
-/

/-- The workflow `AgentState` fields the orchestration core reads. -/
structure WState where
  objective : String
  todoList : List TodoTask
  completedTasks : List TodoTask
  currentTask : Option TodoTask
  iterationCount : Nat
  finalResult : String
  maxIterations : Nat
deriving DecidableEq, Repr

/-- The decision dictionary returned by `decide_next_action`. -/
structure Decision where
  action : String
  reasoning : String
  nextTaskId : Option Nat
deriving DecidableEq, Repr

/-- `SupervisorAgent.decide_next_action` (supervisor.py lines 98-148).
Checks, in order: the global `MAX_ITERATIONS` cap (note: the constant,
not the per-run `max_iterations` field), the empty-ledger planning case,
the first pending task in list order, and the all-done fallback. -/
def decideNextAction (s : WState) : Decision :=
  let pendingTasks := s.todoList.filter
    (fun t => t.status = TASK_STATUS_PENDING)
  if MAX_ITERATIONS ≤ s.iterationCount then
    ⟨"finalize",
     "Maximum iterations (" ++ toString MAX_ITERATIONS ++ ") reached", none⟩
  else if s.todoList.length = 0 ∧ s.iterationCount = 1 then
    ⟨"plan", "No tasks exist, need to create initial plan", none⟩
  else
    match pendingTasks with
    | nextTask :: _ =>
      ⟨"execute",
       "Execute task " ++ toString nextTask.id ++ ": " ++ nextTask.task,
       some nextTask.id⟩
    | [] => ⟨"finalize", "All tasks completed successfully", none⟩

/-- The two outcomes of `should_continue`. -/
inductive ContinueDecision where
  | supervisor
  | endWorkflow
deriving DecidableEq, Repr

/-- `should_continue` (workflow.py lines 180-212), transcribed in source
order: truthy `final_result` ends; an empty todo list loops only while
`iteration_count < 2`; no pending task ends; the per-run iteration cap
ends; otherwise loop. -/
def shouldContinue (s : WState) : ContinueDecision :=
  if s.finalResult ≠ "" then .endWorkflow
  else if s.todoList = [] then
    if s.iterationCount < 2 then .supervisor else .endWorkflow
  else if s.todoList.filter (fun t => t.status = "pending") = [] then
    .endWorkflow
  else if s.maxIterations ≤ s.iterationCount then .endWorkflow
  else .supervisor

/-- The ordered rule table stated by the specification for the
loop-continuation decision (spec §4.3, "Loop-continuation policy").
This definition follows the claim's wording, to be compared with
`shouldContinue`, which is transcribed from the code. -/
def specContinuationTable (s : WState) : ContinueDecision :=
  if s.finalResult ≠ "" then .endWorkflow
  else if s.todoList = [] ∧ s.iterationCount < 2 then .supervisor
  else if s.todoList = [] ∧ 2 ≤ s.iterationCount then .endWorkflow
  else if s.todoList.filter (fun t => t.status = "pending") = [] then
    .endWorkflow
  else if s.maxIterations ≤ s.iterationCount then .endWorkflow
  else .supervisor

/-!
## Subagent execution (`src/core/agents/subagent.py`) and `task_tool`

The LLM agent invocation (`agent_executor.invoke`) is the external
collaborator: it is modelled as an oracle transforming the file system
and returning an outcome.  The outcome carries a `reportedArtifacts`
list so that theorems can state that the recorded artifacts are
independent of anything the collaborator reports about itself:
`run_subagent` never reads such a list.
-/

/-- What the external agent invocation produces: its textual output, the
number of intermediate steps, and any artifact list it may claim. -/
structure ExecOutcome where
  output : String
  intermediateStepsCount : Nat
  reportedArtifacts : List String
deriving DecidableEq, Repr

/-- The dictionary returned by `SubagentExecutor.run_subagent`. -/
structure SubagentResult where
  success : Bool
  result : String
  iterationsUsed : Nat
  artifactsCreated : List String
deriving DecidableEq, Repr

/-- `SubagentExecutor.run_subagent` (lines 350-403): snapshot the file
listing immediately before the invoke call, run the collaborator,
snapshot again immediately after, and record the set difference
`files_after - files_before` as the artifacts.  Success is the Python
truthiness of `result["output"]`.  Prompt construction and agent setup
(lines 281-348) read but never write the file system and are elided. -/
def runSubagent (fs : FS) (exec : FS → FS × ExecOutcome) :
    SubagentResult × FS :=
  let filesBefore := listFiles fs
  let invoked := exec fs
  let iterationsUsed := invoked.2.intermediateStepsCount
  let filesAfter := listFiles invoked.1
  let newFiles := filesAfter.filter (fun p => ¬ filesBefore.contains p)
  if invoked.2.output ≠ "" then
    (⟨true, invoked.2.output, iterationsUsed, newFiles⟩, invoked.1)
  else
    (⟨false, "Subagent execution completed but no clear result was generated",
      iterationsUsed, newFiles⟩, invoked.1)

/-- The post-execution bookkeeping of `task_tool` (supervisor_tools.py
lines 569-609): find the first ledger task whose description matches and
mark it completed/failed with the subagent's computed artifact list.
(The Python disjunct `task.get("description") == task_description` is
always false: ledger tasks have no `description` key.)  Returns the
updated manager and the `task_updated` flag. -/
def recordTaskResult (mgr : TodoManager) (taskDescription : String)
    (sr : SubagentResult) : TodoManager × Bool :=
  match mgr.todoList.find? (fun t => t.task = taskDescription) with
  | some t =>
    let newStatus := if sr.success then "completed" else "failed"
    match updateTaskWithArtifacts mgr t.id newStatus
        (some sr.artifactsCreated) with
    | .ok res => (res.2, true)
    | .error _ => (mgr, true)  -- unreachable: both statuses are valid
  | none => (mgr, false)

/-- The `{**assignable_tools, **file_tools}` registry keys used by
`task_tool` validation: `get_assignable_tools` then `get_file_tools`,
in insertion order. -/
def availableToolNames : List String :=
  ["execute_code", "search_internet", "web_scrape",
   "read_file", "write_file", "edit_file"]

/-- The `tool_name_corrections` alias map of `task_tool`. -/
def toolNameCorrections : List (String × String) :=
  [("execute_code_tool", "execute_code"),
   ("search_internet_tool", "search_internet"),
   ("web_scrape_tool", "web_scrape"),
   ("read_file_tool", "read_file"),
   ("write_file_tool", "write_file"),
   ("edit_file_tool", "edit_file")]

/-- Alias normalization applied to each assigned tool name. -/
def correctToolName (t : String) : String :=
  match toolNameCorrections.find? (fun kv => kv.1 = t) with
  | some kv => kv.2
  | none => t

/-- The runtime shape of the `context` argument of `task_tool`:
`None` (replaced by a default dict), a dict, or any non-dict value. -/
inductive PyCtx where
  | noneCtx
  | dict
  | nonDict
deriving DecidableEq, Repr

/-- The response dictionary of `task_tool`.  `taskUpdated` is present
only on the delegated path. -/
structure TaskToolResponse where
  success : Bool
  result : String
  artifacts : List String
  details : String
  taskUpdated : Option Bool
deriving DecidableEq, Repr

/-- Python renders the failure details as
`f"Invalid tools: {invalid}. Available tools: {valid}"`; the list
renderings keep order and completeness (Python's quoting of each
element in `repr` is elided). -/
def invalidToolsDetails (invalid valid : List String) : String :=
  "Invalid tools: [" ++ String.intercalate ", " invalid ++
    "]. Available tools: [" ++ String.intercalate ", " valid ++ "]"

/-- `task_tool` (supervisor_tools.py lines 476-626): input validation,
alias normalization, registry validation, then delegation to
`run_subagent` and ledger reconciliation.  Returns the response together
with the resulting file system and ledger. -/
def taskTool (taskDescription : String) (assignedTools : List String)
    (successCriteria : String) (context : PyCtx) (fs : FS)
    (mgr : TodoManager) (exec : FS → FS × ExecOutcome) :
    TaskToolResponse × FS × TodoManager :=
  if taskDescription = "" then
    (⟨false, "", [], "task_description must be a non-empty string", none⟩,
     fs, mgr)
  else if assignedTools = [] then
    (⟨false, "", [], "assigned_tools must be a non-empty list", none⟩,
     fs, mgr)
  else if context = PyCtx.nonDict then
    (⟨false, "", [], "context must be a dictionary", none⟩, fs, mgr)
  else if successCriteria = "" then
    (⟨false, "", [], "success_criteria must be a non-empty string", none⟩,
     fs, mgr)
  else
    let correctedTools := assignedTools.map correctToolName
    let invalidTools := correctedTools.filter
      (fun t => ¬ availableToolNames.contains t)
    if invalidTools ≠ [] then
      (⟨false, "", [], invalidToolsDetails invalidTools availableToolNames,
        none⟩, fs, mgr)
    else
      let run := runSubagent fs exec
      let recorded := recordTaskResult mgr taskDescription run.1
      (⟨run.1.success, run.1.result, run.1.artifactsCreated,
        "Used " ++ toString run.1.iterationsUsed ++ " iterations",
        some recorded.2⟩,
       run.2, recorded.1)

/-!
## Helper lemmas
-/

/-- In the `find_replace` loop, the running total equals the sum of the
occurrence counts of the reported changes, and every reported change
has at least one occurrence. -/
theorem applyFindReplace_spec (items : List EditItem) : ∀ c : Str,
    (applyFindReplace c items).2.2
      = ((applyFindReplace c items).2.1.map Change.occurrences).sum ∧
    ∀ ch ∈ (applyFindReplace c items).2.1, 0 < ch.occurrences := by
  induction items with
  | nil => intro c; simp [applyFindReplace]
  | cons head rest ih =>
    intro c
    cases head with
    | junk => simpa [applyFindReplace] using ih c
    | pair f r =>
      by_cases hc : 0 < countOccs c f
      · obtain ⟨ih1, ih2⟩ := ih (pyReplace c f r)
        refine ⟨?_, ?_⟩
        · simp [applyFindReplace, hc, ih1]
        · intro ch hch
          simp only [applyFindReplace, hc, if_pos, List.mem_cons] at hch
          rcases hch with h | h
          · subst h; exact hc
          · exact ih2 ch h
      · simpa [applyFindReplace, hc] using ih c

/-- A single `{find, replace}` pair with no occurrence is skipped:
content, change list and total are untouched. -/
theorem applyFindReplace_noop (c f r : Str) (h : countOccs c f = 0) :
    applyFindReplace c [.pair f r] = (c, [], 0) := by
  simp [applyFindReplace, h]

/-- Updating the status/artifacts of a present task id makes the first
task with that id carry exactly the attached artifact list. -/
theorem artifactsOfTask_updateFirstTask (l : List TodoTask) (tid : Nat)
    (st : String) (a : List String) (h : ∃ u ∈ l, u.id = tid) :
    artifactsOfTask (updateFirstTask l tid st (some a)).2 tid = some a := by
  induction l with
  | nil => simp at h
  | cons t rest ih =>
    by_cases ht : t.id = tid
    · simp [updateFirstTask, ht, artifactsOfTask, List.find?]
    · obtain ⟨u, hu, hid⟩ := h
      rcases List.mem_cons.mp hu with rfl | humem
      · exact absurd hid ht
      · have := ih ⟨u, humem, hid⟩
        simpa [updateFirstTask, ht, artifactsOfTask, List.find?] using this

/-- `create_tasks` only appends tasks, and every appended task has
status `pending`. -/
theorem createTasks_todoList_append (descs : List String)
    (tools : Option (List String)) : ∀ m : TodoManager,
    ∃ newTasks : List TodoTask,
      (createTasks m descs tools).2.todoList = m.todoList ++ newTasks ∧
      ∀ t ∈ newTasks, t.status = "pending" := by
  induction descs with
  | nil => intro m; exact ⟨[], by simp [createTasks]⟩
  | cons d rest ih =>
    intro m
    by_cases hd : pyStrip d ≠ ""
    · obtain ⟨newTasks, h1, h2⟩ :=
        ih ⟨m.todoList ++ [⟨m.nextTaskId, pyStrip d, "pending",
          analyzeTaskTools (pyStrip d) tools, none⟩], m.nextTaskId + 1⟩
      refine ⟨⟨m.nextTaskId, pyStrip d, "pending",
        analyzeTaskTools (pyStrip d) tools, none⟩ :: newTasks, ?_, ?_⟩
      · simpa [createTasks, hd] using h1
      · intro t ht
        rcases List.mem_cons.mp ht with rfl | htm
        · rfl
        · exact h2 t htm
    · obtain ⟨newTasks, h1, h2⟩ := ih m
      exact ⟨newTasks, by simpa [createTasks, hd] using h1, h2⟩

/-- A list of pending tasks contributes nothing to the in-progress
count. -/
theorem inProgressCount_append_pending (l newTasks : List TodoTask)
    (h : ∀ t ∈ newTasks, t.status = "pending") :
    inProgressCount (l ++ newTasks) = inProgressCount l := by
  unfold inProgressCount
  rw [List.filter_append]
  have : newTasks.filter (fun t => t.status = "in_progress") = [] := by
    rw [List.filter_eq_nil_iff]
    intro t ht
    simp [h t ht]
  simp [this]

/-- Filtering out completed tasks cannot increase the in-progress
count. -/
theorem inProgressCount_filter_le (l : List TodoTask) (p : TodoTask → Bool) :
    inProgressCount (l.filter p) ≤ inProgressCount l := by
  unfold inProgressCount
  exact ((List.filter_sublist l).filter _).length_le

/-!
## Claim theorems
-/

/-- Claim C8 (confirmed): for every non-empty path `p` and content `c`,
`write_file p c` succeeds, fully replaces any previous content (the
store maps `p` to exactly `c` afterwards), reports `created` when `p`
was absent and `overwritten` when it existed, and a subsequent
`read_file p` with no intervening mutation returns exactly `c`. -/
theorem write_read_roundtrip (fs : FS) (p : String) (c : Str) (h : p ≠ "") :
    writeFile fs p c = .ok
      (⟨p, utf8Len c,
        if (lookupFile fs p).isNone then "created" else "overwritten"⟩,
       setFile fs p c) ∧
    lookupFile (setFile fs p c) p = some c ∧
    readFile (setFile fs p c) p = .ok c := by
  refine ⟨?_, lookupFile_setFile_self fs p c, ?_⟩
  · unfold writeFile
    rw [if_neg h]
  · unfold readFile
    rw [if_neg h, lookupFile_setFile_self]

/-- Witness for C8: a fresh path reports `created` and round-trips; an
existing path reports `overwritten` and its old content is gone. -/
theorem write_read_roundtrip_witness :
    (writeFile [] "report.txt" ("hello".toList) = .ok
      (⟨"report.txt", utf8Len ("hello".toList),
        if (lookupFile [] "report.txt").isNone then "created"
        else "overwritten"⟩,
       setFile [] "report.txt" ("hello".toList)) ∧
     lookupFile (setFile [] "report.txt" ("hello".toList)) "report.txt"
       = some ("hello".toList) ∧
     readFile (setFile [] "report.txt" ("hello".toList)) "report.txt"
       = .ok ("hello".toList)) ∧
    (writeFile [("report.txt", "old".toList)] "report.txt" ("new".toList)
       = .ok
      (⟨"report.txt", utf8Len ("new".toList),
        if (lookupFile [("report.txt", "old".toList)] "report.txt").isNone
        then "created" else "overwritten"⟩,
       setFile [("report.txt", "old".toList)] "report.txt" ("new".toList)) ∧
     lookupFile (setFile [("report.txt", "old".toList)] "report.txt"
       ("new".toList)) "report.txt" = some ("new".toList) ∧
     readFile (setFile [("report.txt", "old".toList)] "report.txt"
       ("new".toList)) "report.txt" = .ok ("new".toList)) ∧
    (if (lookupFile [] "report.txt").isNone then "created"
     else "overwritten") = "created" ∧
    (if (lookupFile [("report.txt", "old".toList)] "report.txt").isNone
     then "created" else "overwritten") = "overwritten" :=
  ⟨write_read_roundtrip [] "report.txt" ("hello".toList) (by decide),
   write_read_roundtrip [("report.txt", "old".toList)] "report.txt"
     ("new".toList) (by decide),
   by decide, by decide⟩

/-- Claim C9 (confirmed): `edit_file` in `append` mode on an existing
path sets the new content to the old content followed by the appended
string, inserting a single separating newline exactly when the old
content is non-empty and does not already end in a newline. -/
theorem edit_file_append (fs : FS) (p : String) (old s : Str)
    (h : lookupFile fs p = some old) :
    editFile fs p (.str s) "append" =
      (⟨true, p, none, some "append", [], 0, some (utf8Len s), none, none⟩,
       setFile fs p (old ++
         (if old ≠ [] ∧ old.getLast? ≠ some '\n' then ['\n'] else []) ++ s))
    := by
  unfold editFile
  rw [h]
  simp only [editFileExisting, if_pos]

/-- Witness for C9: appending `"new text"` to `"abc"` (no trailing
newline) yields `"abc\nnew text"`, and appending to an empty file adds
no leading newline. -/
theorem edit_file_append_witness :
    (editFile [("f.txt", "abc".toList)] "f.txt" (.str "new text".toList)
       "append" =
      (⟨true, "f.txt", none, some "append", [], 0,
        some (utf8Len "new text".toList), none, none⟩,
       setFile [("f.txt", "abc".toList)] "f.txt" ("abc".toList ++
         (if "abc".toList ≠ [] ∧ "abc".toList.getLast? ≠ some '\n'
          then ['\n'] else []) ++ "new text".toList))) ∧
    setFile [("f.txt", "abc".toList)] "f.txt" ("abc".toList ++
      (if "abc".toList ≠ [] ∧ "abc".toList.getLast? ≠ some '\n'
       then ['\n'] else []) ++ "new text".toList)
      = [("f.txt", "abc\nnew text".toList)] ∧
    (editFile [("e.txt", [])] "e.txt" (.str "x".toList) "append" =
      (⟨true, "e.txt", none, some "append", [], 0,
        some (utf8Len "x".toList), none, none⟩,
       setFile [("e.txt", [])] "e.txt" (([] : Str) ++
         (if ([] : Str) ≠ [] ∧ ([] : Str).getLast? ≠ some '\n'
          then ['\n'] else []) ++ "x".toList))) ∧
    setFile [("e.txt", [])] "e.txt" (([] : Str) ++
      (if ([] : Str) ≠ [] ∧ ([] : Str).getLast? ≠ some '\n'
       then ['\n'] else []) ++ "x".toList) = [("e.txt", "x".toList)] :=
  ⟨edit_file_append [("f.txt", "abc".toList)] "f.txt" ("abc".toList)
     ("new text".toList) (by decide),
   by decide,
   edit_file_append [("e.txt", [])] "e.txt" [] ("x".toList) (by decide),
   by decide⟩

/-- Claim C4 (confirmed): the loop-continuation decision after each SYNC
(`should_continue`) equals the specification's ordered rule table: a set
`final_result` ends; an empty todo list loops while `iteration_count <
2` and ends from 2 on; no pending task ends; reaching the per-run
iteration cap ends; otherwise the workflow loops. -/
theorem should_continue_matches_rule_table (s : WState) :
    shouldContinue s = specContinuationTable s := by
  unfold shouldContinue specContinuationTable
  rcases s with ⟨obj, todo, comp, cur, iter, fin, maxIt⟩
  by_cases h1 : fin ≠ ""
  · simp [h1]
  · by_cases h2 : todo = ([] : List TodoTask)
    · by_cases h3 : iter < 2
      · simp [h1, h2, h3]
      · simp [h1, h2, h3]
    · simp [h1, h2]

/-- A run state configured with `max_iterations = 5` that has reached its
configured cap but not the global constant, with a pending task left. -/
def c5State : WState :=
  ⟨"obj", [⟨1, "write report", "pending", ["write_file"], none⟩], [], none,
   5, "", 5⟩

/-- Claim C5 (counterexample): a state whose `iteration_count` (5) has
reached the run's configured `max_iterations` (5) is still routed to
`execute`, not `finalize`: `decide_next_action` compares against the
global `MAX_ITERATIONS` constant (20), ignoring the configured cap. -/
theorem decide_next_action_ignores_configured_cap :
    c5State.maxIterations ≤ c5State.iterationCount ∧
    (decideNextAction c5State).action = "execute" ∧
    (decideNextAction c5State).action ≠ "finalize" := by decide

/-- Claim C5 (amended): for every state whose `iteration_count` is at
least the global `MAX_ITERATIONS` constant (20) — not the per-run
configured `max_iterations` — `decide_next_action` returns `finalize`
with the maximum-iterations reason and no task id, regardless of
pending tasks: this check precedes the plan and execute branches. -/
theorem decide_next_action_global_cap (s : WState)
    (h : MAX_ITERATIONS ≤ s.iterationCount) :
    decideNextAction s =
      ⟨"finalize",
       "Maximum iterations (" ++ toString MAX_ITERATIONS ++ ") reached",
       none⟩ := by
  unfold decideNextAction
  rw [if_pos h]

/-- Witness for the amended C5: at iteration 20 with pending tasks
remaining, the decision is `finalize`. -/
theorem decide_next_action_global_cap_witness :
    decideNextAction
      ⟨"obj", [⟨1, "write report", "pending", ["write_file"], none⟩,
               ⟨2, "send report", "pending", ["write_file"], none⟩],
       [], none, 20, "", 20⟩ =
      ⟨"finalize",
       "Maximum iterations (" ++ toString MAX_ITERATIONS ++ ") reached",
       none⟩ :=
  decide_next_action_global_cap
    ⟨"obj", [⟨1, "write report", "pending", ["write_file"], none⟩,
             ⟨2, "send report", "pending", ["write_file"], none⟩],
     [], none, 20, "", 20⟩ (by decide)

/-- A state whose pending tasks appear in the order [3, 1, 2]. -/
def c1State : WState :=
  ⟨"obj", [⟨3, "task c", "pending", [], none⟩,
           ⟨1, "task a", "pending", [], none⟩,
           ⟨2, "task b", "pending", [], none⟩], [], none, 2, "", 20⟩

/-- Claim C1 (counterexample): with pending ids `[3, 1, 2]` in list
order and the iteration count below the cap, `decide_next_action`
selects id 3 — the first pending task in list order — not the lowest id
1. -/
theorem decide_next_action_not_lowest_id :
    ((c1State.todoList.filter (fun t => t.status = "pending")).map
      TodoTask.id) = [3, 1, 2] ∧
    ((c1State.todoList.filter (fun t => t.status = "pending")).map
      TodoTask.id).min? = some 1 ∧
    c1State.iterationCount < MAX_ITERATIONS ∧
    (decideNextAction c1State).action = "execute" ∧
    (decideNextAction c1State).nextTaskId = some 3 ∧
    (some 3 : Option Nat) ≠ some 1 := by decide

/-- Claim C1 (amended): for every state with at least one pending task
and an iteration count below the global cap, `decide_next_action`
returns `execute` with `next_task_id` equal to the id of the *first*
pending task in `todo_list` order (which is the lowest pending id only
when the list is ordered by increasing id, as the ledger produces
it). -/
theorem decide_next_action_first_pending (s : WState) (t : TodoTask)
    (rest : List TodoTask) (hcap : s.iterationCount < MAX_ITERATIONS)
    (hp : s.todoList.filter (fun u => u.status = TASK_STATUS_PENDING)
      = t :: rest) :
    decideNextAction s =
      ⟨"execute", "Execute task " ++ toString t.id ++ ": " ++ t.task,
       some t.id⟩ := by
  have hne : s.todoList ≠ [] := by
    intro hnil
    rw [hnil] at hp
    simp at hp
  unfold decideNextAction
  rw [if_neg (by omega), if_neg (by
    rintro ⟨h1, -⟩
    exact hne (List.length_eq_zero.mp h1))]
  rw [hp]

/-- Witness for the amended C1: a single pending task with id 1 is
selected for execution. -/
theorem decide_next_action_first_pending_witness :
    decideNextAction
      ⟨"obj", [⟨1, "write report", "pending", ["write_file"], none⟩],
       [], none, 2, "", 20⟩ =
      ⟨"execute", "Execute task " ++ toString (1 : Nat) ++ ": " ++
        "write report", some 1⟩ :=
  decide_next_action_first_pending
    ⟨"obj", [⟨1, "write report", "pending", ["write_file"], none⟩],
     [], none, 2, "", 20⟩
    ⟨1, "write report", "pending", ["write_file"], none⟩ [] (by decide)
    (by decide)

/-- A store with one file whose content does not contain `"X"`. -/
def c2Fs : FS := [("notes.txt", "abc".toList)]

/-- Claim C2 (counterexample): a `find_replace` edit whose only pair has
zero occurrences succeeds with content unchanged and zero total
replacements, but the pair is *not* reported in the per-pair change
list (`changes = []`), contradicting "still reported with
`occurrences=0`". -/
theorem edit_file_zero_occurrence_pair_unreported :
    (editFile c2Fs "notes.txt"
      (.list [.pair "X".toList "Y".toList]) "find_replace").1.success
      = true ∧
    (editFile c2Fs "notes.txt"
      (.list [.pair "X".toList "Y".toList]) "find_replace").1.changes
      = [] ∧
    (editFile c2Fs "notes.txt"
      (.list [.pair "X".toList "Y".toList])
      "find_replace").1.totalReplacements = 0 ∧
    (editFile c2Fs "notes.txt"
      (.list [.pair "X".toList "Y".toList]) "find_replace").2 = c2Fs := by
  decide

/-- Claim C2 (amended): `edit_file` in `find_replace` mode on an
existing path applies each pair in list order to the current (possibly
already-modified) content; `total_replacements` equals the sum of the
occurrence counts of the *reported* pairs, every reported pair has at
least one occurrence, and a pair with zero occurrences leaves the
content unchanged but is omitted from the change list rather than
reported with `occurrences=0`. -/
theorem edit_file_find_replace_spec (fs : FS) (p : String) (old : Str)
    (items : List EditItem) (h : lookupFile fs p = some old) :
    (editFile fs p (.list items) "find_replace").1.success = true ∧
    (editFile fs p (.list items) "find_replace").1.totalReplacements
      = (((editFile fs p (.list items) "find_replace").1.changes).map
          Change.occurrences).sum ∧
    (∀ ch ∈ (editFile fs p (.list items) "find_replace").1.changes,
      0 < ch.occurrences) ∧
    (editFile fs p (.list items) "find_replace").2
      = setFile fs p (applyFindReplace old items).1 ∧
    (∀ f r : Str, countOccs old f = 0 →
      editFile fs p (.list [.pair f r]) "find_replace"
        = (⟨true, p, none, some "find_replace", [], 0, none, none, none⟩,
           fs)) := by
  have hred : editFile fs p (.list items) "find_replace"
      = (⟨true, p, none, some "find_replace",
          (applyFindReplace old items).2.1,
          (applyFindReplace old items).2.2, none, none, none⟩,
         setFile fs p (applyFindReplace old items).1) := by
    unfold editFile
    rw [h]
    simp [editFileExisting]
  obtain ⟨hsum, hpos⟩ := applyFindReplace_spec items old
  refine ⟨by rw [hred], by rw [hred]; exact hsum,
          by rw [hred]; exact hpos, by rw [hred], ?_⟩
  intro f r hzero
  have hred1 : editFile fs p (.list [.pair f r]) "find_replace"
      = (⟨true, p, none, some "find_replace",
          (applyFindReplace old [.pair f r]).2.1,
          (applyFindReplace old [.pair f r]).2.2, none, none, none⟩,
         setFile fs p (applyFindReplace old [.pair f r]).1) := by
    unfold editFile
    rw [h]
    simp [editFileExisting]
  rw [hred1, applyFindReplace_noop old f r hzero,
      setFile_self_of_lookup fs p old h]

/-- Witness for the amended C2: a two-pair edit where the second pair
rewrites text produced by the first, plus a zero-occurrence no-op. -/
theorem edit_file_find_replace_spec_witness :
    ((editFile [("f.txt", "aba".toList)] "f.txt"
        (.list [.pair "b".toList "c".toList,
                .pair "ca".toList "d".toList]) "find_replace").1.success
        = true ∧
     (editFile [("f.txt", "aba".toList)] "f.txt"
        (.list [.pair "b".toList "c".toList,
                .pair "ca".toList "d".toList])
        "find_replace").1.totalReplacements
        = (((editFile [("f.txt", "aba".toList)] "f.txt"
            (.list [.pair "b".toList "c".toList,
                    .pair "ca".toList "d".toList])
            "find_replace").1.changes).map Change.occurrences).sum ∧
     (∀ ch ∈ (editFile [("f.txt", "aba".toList)] "f.txt"
        (.list [.pair "b".toList "c".toList,
                .pair "ca".toList "d".toList]) "find_replace").1.changes,
        0 < ch.occurrences) ∧
     (editFile [("f.txt", "aba".toList)] "f.txt"
        (.list [.pair "b".toList "c".toList,
                .pair "ca".toList "d".toList]) "find_replace").2
        = setFile [("f.txt", "aba".toList)] "f.txt"
            (applyFindReplace "aba".toList
              [.pair "b".toList "c".toList,
               .pair "ca".toList "d".toList]).1 ∧
     (∀ f r : Str, countOccs "aba".toList f = 0 →
        editFile [("f.txt", "aba".toList)] "f.txt"
          (.list [.pair f r]) "find_replace"
          = (⟨true, "f.txt", none, some "find_replace", [], 0, none, none,
              none⟩, [("f.txt", "aba".toList)]))) ∧
    (applyFindReplace "aba".toList
      [.pair "b".toList "c".toList, .pair "ca".toList "d".toList]).1
      = "ad".toList :=
  ⟨edit_file_find_replace_spec [("f.txt", "aba".toList)] "f.txt"
     ("aba".toList)
     [.pair "b".toList "c".toList, .pair "ca".toList "d".toList]
     (by decide),
   by decide⟩

/-- A valid ledger: task 1 is `in_progress`, task 2 is `pending`. -/
def c3Manager : TodoManager :=
  ⟨[⟨1, "task a", "in_progress", [], none⟩,
    ⟨2, "task b", "pending", [], none⟩], 3⟩

/-- Claim C3 (counterexample): starting from a ledger satisfying the
invariant, `update_task_status` happily sets a second task to
`in_progress` (two tasks then share that status), and sets a task that
has left `pending` (task 1, currently `in_progress`) back to
`pending`. -/
theorem todo_manager_invariant_not_enforced :
    atMostOneInProgress c3Manager.todoList ∧
    statusOfTask c3Manager.todoList 1 = some "in_progress" ∧
    (updateTaskStatus c3Manager 2 "in_progress").toOption.map
      (fun res => inProgressCount res.2.todoList) = some 2 ∧
    (updateTaskStatus c3Manager 1 "pending").toOption.map
      (fun res => statusOfTask res.2.todoList 1) = some (some "pending")
    := by decide

/-- Claim C3 (amended): `create_tasks`, `add_task` and
`clear_completed_tasks` preserve the at-most-one-`in_progress`
invariant (the first two only append fresh `pending` tasks, the third
only removes tasks); `update_task_status` and
`update_task_with_artifacts` validate the new status against the four
valid values but place no restriction on transitions, so they can
produce a second `in_progress` task and can return a task to
`pending`. -/
theorem todo_manager_append_ops_preserve_invariant (m : TodoManager)
    (h : atMostOneInProgress m.todoList) (descs : List String)
    (tools : Option (List String)) (d : String) :
    atMostOneInProgress (createTasks m descs tools).2.todoList ∧
    atMostOneInProgress (addTask m d tools).2.todoList ∧
    atMostOneInProgress (clearCompletedTasks m).2.todoList := by
  refine ⟨?_, ?_, ?_⟩
  · obtain ⟨newTasks, h1, h2⟩ := createTasks_todoList_append descs tools m
    unfold atMostOneInProgress
    rw [h1, inProgressCount_append_pending _ _ h2]
    exact h
  · unfold atMostOneInProgress addTask
    rw [inProgressCount_append_pending m.todoList _ (by
      intro t ht
      rcases List.mem_singleton.mp ht with rfl
      rfl)]
    exact h
  · exact le_trans (inProgressCount_filter_le m.todoList _) h

/-- Witness for the amended C3: the preserving operations applied to a
concrete valid ledger. -/
theorem todo_manager_append_ops_preserve_invariant_witness :
    atMostOneInProgress
      (createTasks c3Manager ["1. research", "2. summarize"]
        none).2.todoList ∧
    atMostOneInProgress (addTask c3Manager "write it up" none).2.todoList ∧
    atMostOneInProgress (clearCompletedTasks c3Manager).2.todoList :=
  todo_manager_append_ops_preserve_invariant c3Manager (by decide)
    ["1. research", "2. summarize"] none "write it up"

/-- Claim C6 (confirmed): the artifacts a task execution records are the
set difference of the file-store listing taken immediately after the
external collaborator call minus the listing taken immediately before
it, and this computed delta — not any artifact list the collaborator
reports about itself (`ExecOutcome.reportedArtifacts` is never read) —
is what `task_tool` attaches to the executed task. -/
theorem run_subagent_artifact_delta (fs : FS)
    (exec : FS → FS × ExecOutcome) (mgr : TodoManager) (desc : String)
    (t : TodoTask)
    (h : mgr.todoList.find? (fun u => u.task = desc) = some t) :
    (runSubagent fs exec).1.artifactsCreated
      = (listFiles (exec fs).1).filter
          (fun p => ¬ (listFiles fs).contains p) ∧
    artifactsOfTask
        ((recordTaskResult mgr desc (runSubagent fs exec).1).1).todoList
        t.id
      = some ((runSubagent fs exec).1.artifactsCreated) := by
  have hex : ∃ u ∈ mgr.todoList, u.id = t.id :=
    ⟨t, List.mem_of_find?_eq_some h, rfl⟩
  constructor
  · unfold runSubagent
    dsimp only
    split <;> rfl
  · unfold recordTaskResult
    rw [h]
    cases hsucc : (runSubagent fs exec).1.success <;>
      · dsimp only [hsucc]
        unfold updateTaskWithArtifacts
        rw [if_neg (by decide)]
        exact artifactsOfTask_updateFirstTask _ _ _ _ hex

/-- Witness for C6: the collaborator creates `data.txt` and self-reports
a bogus artifact list; the recorded artifacts are exactly the computed
delta `["data.txt"]`. -/
theorem run_subagent_artifact_delta_witness :
    ((runSubagent [("plan.txt", "p".toList)]
        (fun f => (setFile f "data.txt" "5, 10, 15, 20".toList,
                   ⟨"done", 3, ["bogus.txt"]⟩))).1.artifactsCreated
      = (listFiles
          ((fun (f : FS) => (setFile f "data.txt" "5, 10, 15, 20".toList,
            (⟨"done", 3, ["bogus.txt"]⟩ : ExecOutcome)))
           [("plan.txt", "p".toList)]).1).filter
          (fun p => ¬ (listFiles [("plan.txt", "p".toList)]).contains p) ∧
     artifactsOfTask
        ((recordTaskResult
          ⟨[⟨1, "Create data.txt", "pending", ["write_file"], none⟩], 2⟩
          "Create data.txt"
          (runSubagent [("plan.txt", "p".toList)]
            (fun f => (setFile f "data.txt" "5, 10, 15, 20".toList,
                       ⟨"done", 3, ["bogus.txt"]⟩))).1).1).todoList 1
      = some ((runSubagent [("plan.txt", "p".toList)]
          (fun f => (setFile f "data.txt" "5, 10, 15, 20".toList,
                     ⟨"done", 3, ["bogus.txt"]⟩))).1.artifactsCreated)) ∧
    (runSubagent [("plan.txt", "p".toList)]
        (fun f => (setFile f "data.txt" "5, 10, 15, 20".toList,
                   ⟨"done", 3, ["bogus.txt"]⟩))).1.artifactsCreated
      = ["data.txt"] :=
  ⟨run_subagent_artifact_delta [("plan.txt", "p".toList)]
     (fun f => (setFile f "data.txt" "5, 10, 15, 20".toList,
                ⟨"done", 3, ["bogus.txt"]⟩))
     ⟨[⟨1, "Create data.txt", "pending", ["write_file"], none⟩], 2⟩
     "Create data.txt" ⟨1, "Create data.txt", "pending", ["write_file"],
       none⟩ (by decide),
   by decide⟩

/-- Claim C7 (confirmed): when the assigned tool list, after alias
normalization, contains a name outside the union of the file-tool and
assignable-tool registries, `task_tool` returns a failure response
(`success = false`) — not an exception — whose details carry every
offending tool name and the full valid registry, the stores are
untouched, and the collaborator is never invoked (the response does not
depend on `exec`). -/
theorem task_tool_invalid_tools (td sc : String) (tools : List String)
    (ctx : PyCtx) (fs : FS) (mgr : TodoManager)
    (exec : FS → FS × ExecOutcome)
    (h1 : td ≠ "") (h2 : tools ≠ []) (h3 : ctx ≠ PyCtx.nonDict)
    (h4 : sc ≠ "")
    (h5 : (tools.map correctToolName).filter
      (fun t => ¬ availableToolNames.contains t) ≠ []) :
    taskTool td tools sc ctx fs mgr exec =
      (⟨false, "", [],
        invalidToolsDetails
          ((tools.map correctToolName).filter
            (fun t => ¬ availableToolNames.contains t))
          availableToolNames, none⟩, fs, mgr) ∧
    ∀ t, t ∈ (tools.map correctToolName).filter
        (fun t => ¬ availableToolNames.contains t)
      ↔ t ∈ tools.map correctToolName ∧ t ∉ availableToolNames := by
  constructor
  · unfold taskTool
    rw [if_neg h1, if_neg h2, if_neg h3, if_neg h4]
    dsimp only
    rw [if_pos h5]
  · intro t
    rw [List.mem_filter]
    simp

/-- Witness for C7: `assignedTools = ["nonexistent_tool"]` yields the
`Invalid tools` failure naming it along with the valid registry. -/
theorem task_tool_invalid_tools_witness :
    taskTool "Analyze data" ["nonexistent_tool"] "report written" .dict
      [] ⟨[], 1⟩ (fun f => (f, ⟨"", 0, []⟩)) =
      (⟨false, "", [],
        invalidToolsDetails
          ((["nonexistent_tool"].map correctToolName).filter
            (fun t => ¬ availableToolNames.contains t))
          availableToolNames, none⟩, [], ⟨[], 1⟩) ∧
    "nonexistent_tool" ∈ (["nonexistent_tool"].map correctToolName).filter
      (fun t => ¬ availableToolNames.contains t) :=
  ⟨(task_tool_invalid_tools "Analyze data" "report written"
      ["nonexistent_tool"] .dict [] ⟨[], 1⟩ (fun f => (f, ⟨"", 0, []⟩))
      (by decide) (by decide) (by decide) (by decide) (by decide)).1,
   by decide⟩

/-- Claim C10 (confirmed): `edit_file` is total and returns a response
with a boolean `success` key instead of raising — here by construction,
mirroring the surrounding `try/except` of the Python code.  A
nonexistent path, a non-string edits value in `append` mode, and an
unrecognized mode/edits combination (an unknown mode string, or `auto`
with a value that is neither string nor list) each yield
`success = false` with an error message and leave the store unchanged,
whereas `read_file`, `delete_file` and `get_file_info` on an absent
(valid) path raise `FileNotFoundError`. -/
theorem edit_file_total_error_handling :
    (∀ (fs : FS) (p : String) (e : EditSpec) (m : String),
      lookupFile fs p = none →
      (editFile fs p e m).1.success = false ∧
      (editFile fs p e m).1.error
        = some ("File " ++ p ++ " not found") ∧
      (editFile fs p e m).2 = fs) ∧
    (∀ (fs : FS) (p : String) (old : Str) (e : EditSpec),
      lookupFile fs p = some old → (∀ s : Str, e ≠ .str s) →
      (editFile fs p e "append").1.success = false ∧
      (editFile fs p e "append").1.error
        = some "Append mode requires string content" ∧
      (editFile fs p e "append").2 = fs) ∧
    (∀ (fs : FS) (p : String) (old : Str) (e : EditSpec) (m : String),
      lookupFile fs p = some old →
      ((m ≠ "append" ∧ m ≠ "replace" ∧ m ≠ "find_replace" ∧ m ≠ "auto") ∨
        (m = "auto" ∧ e = .other)) →
      (editFile fs p e m).1.success = false ∧
      (editFile fs p e m).1.error = some "Invalid mode or edits format" ∧
      (editFile fs p e m).2 = fs) ∧
    (∀ (fs : FS) (p : String), p ≠ "" → lookupFile fs p = none →
      readFile fs p
        = .error (.fileNotFoundError ("File " ++ p ++ " not found")) ∧
      deleteFile fs p
        = .error (.fileNotFoundError ("File " ++ p ++ " not found")) ∧
      getFileInfo fs p
        = .error (.fileNotFoundError ("File " ++ p ++ " not found"))) := by
  refine ⟨?_, ?_, ?_, ?_⟩
  · intro fs p e m h
    unfold editFile
    rw [h]
    exact ⟨rfl, rfl, rfl⟩
  · intro fs p old e h hne
    unfold editFile
    rw [h]
    dsimp only
    unfold editFileExisting
    rw [if_pos rfl]
    cases e with
    | str s => exact absurd rfl (hne s)
    | list items => exact ⟨rfl, rfl, rfl⟩
    | other => exact ⟨rfl, rfl, rfl⟩
  · intro fs p old e m h hm
    unfold editFile
    rw [h]
    dsimp only
    unfold editFileExisting
    rcases hm with ⟨hm1, hm2, hm3, hm4⟩ | ⟨hm1, hm2⟩
    · rw [if_neg hm1, if_neg (by
        rintro (rfl | ⟨rfl, -⟩)
        · exact hm2 rfl
        · exact hm4 rfl),
        if_neg (by
        rintro (rfl | ⟨rfl, -⟩)
        · exact hm3 rfl
        · exact hm4 rfl)]
      exact ⟨rfl, rfl, rfl⟩
    · subst hm1
      subst hm2
      simp [EditSpec.isStr, EditSpec.isList, editFailure]
  · intro fs p hp h
    unfold readFile deleteFile getFileInfo
    rw [if_neg hp, if_neg hp, if_neg hp, h]
    exact ⟨rfl, rfl, rfl⟩

/-- Witness for C10, instantiating each error case: a missing path, a
list passed to `append`, an unknown mode, `auto` with a non-iterable
edits value, and the raising accessors on an absent path. -/
theorem edit_file_total_error_handling_witness :
    ((editFile [] "gone.txt" (.str "x".toList) "auto").1.success = false ∧
     (editFile [] "gone.txt" (.str "x".toList) "auto").1.error
       = some ("File " ++ "gone.txt" ++ " not found") ∧
     (editFile [] "gone.txt" (.str "x".toList) "auto").2 = []) ∧
    ((editFile [("a.txt", "hi".toList)] "a.txt" (.list []) "append").1.error
       = some "Append mode requires string content" ∧
     (editFile [("a.txt", "hi".toList)] "a.txt" (.list []) "append").2
       = [("a.txt", "hi".toList)]) ∧
    ((editFile [("a.txt", "hi".toList)] "a.txt" (.str "y".toList)
        "banana").1.error = some "Invalid mode or edits format") ∧
    ((editFile [("a.txt", "hi".toList)] "a.txt" .other "auto").1.error
       = some "Invalid mode or edits format") ∧
    readFile [] "gone.txt"
      = .error (.fileNotFoundError ("File " ++ "gone.txt" ++ " not found"))
      ∧
    deleteFile [] "gone.txt"
      = .error (.fileNotFoundError ("File " ++ "gone.txt" ++ " not found"))
      ∧
    getFileInfo [] "gone.txt"
      = .error (.fileNotFoundError ("File " ++ "gone.txt" ++ " not found"))
    :=
  ⟨edit_file_total_error_handling.1 [] "gone.txt" (.str "x".toList) "auto"
     (by decide),
   ⟨(edit_file_total_error_handling.2.1 [("a.txt", "hi".toList)] "a.txt"
       ("hi".toList) (.list []) (by decide)
       (fun s hs => by cases hs)).2.1,
    (edit_file_total_error_handling.2.1 [("a.txt", "hi".toList)] "a.txt"
       ("hi".toList) (.list []) (by decide)
       (fun s hs => by cases hs)).2.2⟩,
   (edit_file_total_error_handling.2.2.1 [("a.txt", "hi".toList)] "a.txt"
      ("hi".toList) (.str "y".toList) "banana" (by decide)
      (Or.inl (by refine ⟨?_, ?_, ?_, ?_⟩ <;> decide))).2.1,
   (edit_file_total_error_handling.2.2.1 [("a.txt", "hi".toList)] "a.txt"
      ("hi".toList) .other "auto" (by decide)
      (Or.inr ⟨rfl, rfl⟩)).2.1,
   (edit_file_total_error_handling.2.2.2 [] "gone.txt" (by decide)
      (by decide)).1,
   (edit_file_total_error_handling.2.2.2 [] "gone.txt" (by decide)
      (by decide)).2.1,
   (edit_file_total_error_handling.2.2.2 [] "gone.txt" (by decide)
      (by decide)).2.2⟩
